import Mathlib

/-!
Verification development for the POS parent-agent request router
(`src/parent_agent.py`).  The pipeline classifies a free-text message via an
external language-understanding collaborator, sanitizes the raw output into a
JSON object, reads the `intent` field and dispatches to one of several
branches (TASK, COMPLETION, CALENDAR, EMAIL, RESEARCH, fallback UNKNOWN),
creating records in an external document store (Notion) and forwarding
payloads to downstream handler services.

Modelling conventions:
* Python strings are modelled as `List Char` (named `Str`); `pyS` converts a
  Lean string literal.
* JSON values (the result of `json.loads` and the payloads sent around) are
  modelled by the inductive `JVal`.
* External collaborators (classifier, document store, downstream handlers,
  the JSON parser used on collaborator responses) are oracles packaged in a
  `World` value; the pipeline is a pure function of the request and the
  `World`.
* Python exceptions are modelled with `Except Str`; the error message text is
  abbreviated (e.g. `"AttributeError"`) since only its presence is
  observable through the endpoint's catch-all handler.
* Observable external side effects (store creates, handler POSTs, store
  patches, classifier calls) are accumulated in an `Effects` record.
-/

namespace PosAgent

/-- Python strings, modelled as lists of characters. -/
abbrev Str := List Char

/-- Convert a Lean string literal to the `Str` model. -/
def pyS (s : String) : Str := s.toList

/-- The backtick character (Python `"`" ++ "`"`). -/
def backtick : Char := Char.ofNat 96

/-- Opening curly brace character. -/
def lbrace : Char := Char.ofNat 123

/-- Closing curly brace character. -/
def rbrace : Char := Char.ofNat 125

/-- The ASCII whitespace characters stripped by Python's `str.strip()`
(the full Unicode set is irrelevant here). -/
def isPySpace (c : Char) : Bool :=
  c == ' ' || c == '\t' || c == '\n' || c == '\r' || c == Char.ofNat 11 || c == Char.ofNat 12

/-- Is the character a backtick (the set stripped by `str.strip("` ++ "`" ++ `")`)? -/
def isBacktick (c : Char) : Bool := c == backtick

/-- Strip characters satisfying `p` from the right end
(`(l.reverse.dropWhile p).reverse`). -/
def rstripBy (p : Char → Bool) (l : Str) : Str :=
  (l.reverse.dropWhile p).reverse

/-- Python `str.strip(chars)`: drop characters satisfying `p` from both ends. -/
def stripBy (p : Char → Bool) (l : Str) : Str :=
  rstripBy p (l.dropWhile p)

/-- Python `str.strip()` (whitespace strip). -/
def pyStrip (l : Str) : Str := stripBy isPySpace l

/-- Python `s.replace(pat, repl, 1)`: replace the first (leftmost) occurrence
of `pat` only.  (`pat` is nonempty at every call site in the source.) -/
def replaceFirst (pat repl : Str) : Str → Str
  | [] => []
  | c :: rest =>
    if pat.isPrefixOf (c :: rest) then repl ++ (c :: rest).drop pat.length
    else c :: replaceFirst pat repl rest

/-- Worker for `replaceAll`, structurally recursive on a fuel argument that
starts at the list length (each step consumes at least one character, so the
fuel never runs out before the list does). -/
def replaceAllAux (pat repl : Str) : Nat → Str → Str
  | 0, l => l
  | _ + 1, [] => []
  | fuel + 1, c :: rest =>
    if pat.isPrefixOf (c :: rest) then
      repl ++ replaceAllAux pat repl fuel ((c :: rest).drop (max pat.length 1))
    else
      c :: replaceAllAux pat repl fuel rest

/-- Python `s.replace(pat, repl)`: replace every (non-overlapping, leftmost)
occurrence of `pat`.  The `max pat.length 1` only guards termination; `pat`
is nonempty at every call site in the source. -/
def replaceAll (pat repl l : Str) : Str := replaceAllAux pat repl l.length l

/-- Does `pat` occur as a contiguous substring of the list? -/
def hasSubstr (pat : Str) : Str → Bool
  | [] => pat.isPrefixOf []
  | c :: rest => pat.isPrefixOf (c :: rest) || hasSubstr pat rest

/-- Source `clean_json_output` (src/parent_agent.py:138-143):
strip whitespace; if the text starts with a triple backtick, strip all
leading/trailing backticks, remove the first occurrence of `"json"`, and
strip again; finally remove every remaining triple backtick and strip. -/
def clean_json_output (text : Str) : Str :=
  pyStrip (replaceAll (pyS "```") []
    (if (pyS "```").isPrefixOf (pyStrip text) then
      pyStrip (replaceFirst (pyS "json") [] (stripBy isBacktick (pyStrip text)))
    else pyStrip text))

/-- JSON values, the shape of parsed classifier output and of all payloads
exchanged with collaborators (Python `dict`/`list`/`str`/`int`/`bool`/`None`).
Floats never occur in the observable behaviour modelled here. -/
inductive JVal where
  | null : JVal
  | bool (b : Bool) : JVal
  | num (n : Int) : JVal
  | str (s : Str) : JVal
  | arr (elems : List JVal) : JVal
  | obj (fields : List (Str × JVal)) : JVal

/-- First-occurrence lookup in a field list (Python dict access; parsed JSON
objects have unique keys, so first-occurrence agrees with dict semantics). -/
def lookupField : List (Str × JVal) → Str → Option JVal
  | [], _ => none
  | (k', v) :: rest, k => if k' = k then some v else lookupField rest k

/-- Python `d.get(k, default)` on a dict. -/
def objGetD (fs : List (Str × JVal)) (k : Str) (d : JVal) : JVal :=
  match lookupField fs k with
  | some v => v
  | none => d

/-- Python `d[k] = v`: replace an existing binding in place, else append. -/
def objSet (fs : List (Str × JVal)) (k : Str) (v : JVal) : List (Str × JVal) :=
  match fs with
  | [] => [(k, v)]
  | (k', v') :: rest => if k' = k then (k, v) :: rest else (k', v') :: objSet rest k v

/-- Python `x.get(k, default)` on an arbitrary value: raises `AttributeError`
unless `x` is a dict. -/
def jvGetD (v : JVal) (k : Str) (d : JVal) : Except Str JVal :=
  match v with
  | .obj fs => .ok (objGetD fs k d)
  | _ => .error (pyS "AttributeError")

/-- Python truthiness of a JSON value. -/
def pyTruthy : JVal → Bool
  | .null => false
  | .bool b => b
  | .num n => n != 0
  | .str s => !s.isEmpty
  | .arr l => !l.isEmpty
  | .obj l => !l.isEmpty

/-- Python `a or b` for JSON values (returns `a` when truthy, else `b`). -/
def pyOrJ (a b : JVal) : JVal := if pyTruthy a then a else b

/-- Python `None`-or-string truthiness (`notion_id` is `None` or a string). -/
def optStrTruthy : Option Str → Bool
  | none => false
  | some s => !s.isEmpty

/-- Python `str.upper()` (all strings compared in the source are ASCII). -/
def pyUpper (s : Str) : Str := s.map Char.toUpper

/-- Python `x.upper()` on an arbitrary value: raises `AttributeError` unless
`x` is a string. -/
def pyUpperJ : JVal → Except Str Str
  | .str s => .ok (pyUpper s)
  | _ => .error (pyS "AttributeError")

/-- Python `x.strip()` on an arbitrary value: raises `AttributeError` unless
`x` is a string. -/
def pyStripJ : JVal → Except Str Str
  | .str s => .ok (pyStrip s)
  | _ => .error (pyS "AttributeError")

/-- `None`↦`null`, string↦JSON string (serialization of `notion_id` in the
response bodies). -/
def optToJVal : Option Str → JVal
  | none => .null
  | some s => .str s

/-- Decimal digits of a natural number (`Nat.toDigits` from core). -/
def natRepr (n : Nat) : Str := Nat.toDigits 10 n

/-- Python `str(n)` for an integer. -/
def intRepr (n : Int) : Str :=
  if n < 0 then '-' :: natRepr n.natAbs else natRepr n.natAbs

mutual

/-- Python `repr`/`str` of a JSON value as used by f-string interpolation
(`str` and `repr` agree on containers; `reprJ` is the `repr` form, with
quotes around strings; string escaping is not reproduced since no claim
depends on it). -/
def reprJ : JVal → Str
  | .null => pyS "None"
  | .bool true => pyS "True"
  | .bool false => pyS "False"
  | .num n => intRepr n
  | .str s => Char.ofNat 39 :: s ++ [Char.ofNat 39]
  | .arr l => '[' :: reprJList l ++ [']']
  | .obj fs => lbrace :: reprJFields fs ++ [rbrace]

/-- Comma-separated `repr` of list elements. -/
def reprJList : List JVal → Str
  | [] => []
  | [v] => reprJ v
  | v :: rest => reprJ v ++ pyS ", " ++ reprJList rest

/-- Comma-separated `repr` of dict entries. -/
def reprJFields : List (Str × JVal) → Str
  | [] => []
  | [(k, v)] => (Char.ofNat 39 :: k ++ [Char.ofNat 39]) ++ pyS ": " ++ reprJ v
  | (k, v) :: rest =>
    (Char.ofNat 39 :: k ++ [Char.ofNat 39]) ++ pyS ": " ++ reprJ v ++ pyS ", " ++ reprJFields rest

end

/-- Python `str(x)` as used by f-string interpolation: bare text for strings,
`repr`-style rendering otherwise. -/
def pyStrJ : JVal → Str
  | .str s => s
  | v => reprJ v

/-- All-string check used by `", ".join`: Python raises `TypeError` if any
element of the iterable is not a string. -/
def strOfJList : List JVal → Option (List Str)
  | [] => some []
  | .str s :: rest => (strOfJList rest).map (s :: ·)
  | _ :: _ => none

/-- Python `sep.join(x)`: joins a list of strings, the characters of a
string, or the keys of a dict; raises `TypeError` otherwise
(src/parent_agent.py:170 joins `massive_action_plan`). -/
def pyJoin (sep : Str) (v : JVal) : Except Str Str :=
  match v with
  | .str s => .ok (List.intercalate sep (s.map (fun c => [c])))
  | .arr l =>
    match strOfJList l with
    | some parts => .ok (List.intercalate sep parts)
    | none => .error (pyS "TypeError")
  | .obj fs => .ok (List.intercalate sep (fs.map (·.1)))
  | _ => .error (pyS "TypeError")

/-- A timezone-aware Python `datetime` in the fixed `Asia/Kolkata` zone
(`IST`, offset +05:30), as produced by `datetime.now(IST)`. -/
structure PyDateTime where
  year : Nat
  month : Nat
  day : Nat
  hour : Nat
  minute : Nat
  second : Nat
  microsecond : Nat
deriving DecidableEq, Repr

/-- Two decimal digits with leading zero. -/
def pad2 (n : Nat) : Str := [Nat.digitChar (n / 10 % 10), Nat.digitChar (n % 10)]

/-- Four decimal digits with leading zeros. -/
def pad4 (n : Nat) : Str :=
  [Nat.digitChar (n / 1000 % 10), Nat.digitChar (n / 100 % 10),
   Nat.digitChar (n / 10 % 10), Nat.digitChar (n % 10)]

/-- Six decimal digits with leading zeros. -/
def pad6 (n : Nat) : Str :=
  [Nat.digitChar (n / 100000 % 10), Nat.digitChar (n / 10000 % 10),
   Nat.digitChar (n / 1000 % 10), Nat.digitChar (n / 100 % 10),
   Nat.digitChar (n / 10 % 10), Nat.digitChar (n % 10)]

/-- Python `datetime.isoformat()` for an IST-localized datetime:
`YYYY-MM-DDTHH:MM:SS[.ffffff]+05:30` (the fractional part is omitted when
the microsecond field is zero). -/
def isoformat (d : PyDateTime) : Str :=
  pad4 d.year ++ pyS "-" ++ pad2 d.month ++ pyS "-" ++ pad2 d.day ++ pyS "T" ++
  pad2 d.hour ++ pyS ":" ++ pad2 d.minute ++ pyS ":" ++ pad2 d.second ++
  (if d.microsecond = 0 then [] else '.' :: pad6 d.microsecond) ++ pyS "+05:30"

/-- `datetime.replace(hour=23, minute=59, second=0)` as used for the default
due date (src/parent_agent.py:162); date and microsecond are kept. -/
def pyEndOfDay (d : PyDateTime) : PyDateTime :=
  { d with hour := 23, minute := 59, second := 0 }

/-- The Notion page-create payload built by `create_task_in_notion`
(src/parent_agent.py:164-179), with one field per Notion property. -/
structure NotionPayload where
  task : JVal
  result : JVal
  purpose : JVal
  map : Str
  paeiRole : JVal
  status : JVal
  xp : Int
  dueDate : JVal
  createdAt : Str
  source : JVal
  context : JVal

/-- Outcome of one `requests.post` to a downstream handler: an HTTP response
or a raised exception (connection error / timeout), chosen by the `World`. -/
inductive AgentOutcome where
  | resp (status : Nat) (body : Str) : AgentOutcome
  | exn (msg : Str) : AgentOutcome

/-- The external collaborators, packaged as oracles.  The pipeline is a pure
function of the inbound request and a `World`. -/
structure World where
  /-- Is the Groq client configured (`GROQ_API_KEY` present)? -/
  clientConfigured : Bool
  /-- The classifier call: raw response text, or a raised exception. -/
  classifier : Except Str Str
  /-- `json.loads` on collaborator response text: `none` models a raised
  `JSONDecodeError`.  (An oracle: the claims never depend on the concrete
  JSON grammar.) -/
  loads : Str → Option JVal
  /-- `datetime.now(IST)` during this request (the two clock reads inside
  `create_task_in_notion` are microseconds apart and modelled as one). -/
  now : PyDateTime
  /-- HTTP status of the Notion page-create POST. -/
  notionCreateStatus : Nat
  /-- The `id` field of the Notion create response body (when 2xx). -/
  notionCreateId : Option Str
  /-- Outcome of a handler POST, per URL and payload. -/
  agent : Str → JVal → AgentOutcome
  /-- HTTP status of a Notion page patch. -/
  patchStatus : Nat

/-- Observable external side effects of one request. -/
structure Effects where
  /-- Notion page-create calls issued (payloads, in order). -/
  creates : List NotionPayload := []
  /-- Downstream handler POSTs attempted (URL, payload). -/
  posts : List (Str × JVal) := []
  /-- Notion page patches attempted (page id, property name, link value). -/
  patches : List (Str × Str × JVal) := []
  /-- Classifier (Groq) calls attempted. -/
  classifierCalls : Nat := 0

/-- An HTTP response of the Flask endpoint: status code and JSON body. -/
structure HttpResponse where
  status : Nat
  body : JVal

/-- `XP_AGENT_URL` default (src/parent_agent.py:19).  Environment overrides
only rename the endpoints and are not modelled. -/
def XP_AGENT_URL : Str := pyS "https://xp-agent.onrender.com/award_xp"

/-- `CALENDAR_AGENT_URL` default (src/parent_agent.py:20). -/
def CALENDAR_AGENT_URL : Str := pyS "https://calendar-agent.onrender.com/create_event"

/-- `EMAIL_AGENT_URL` default (src/parent_agent.py:21). -/
def EMAIL_AGENT_URL : Str := pyS "https://email-agent-x7n0.onrender.com/create_draft"

/-- `RESEARCH_AGENT_URL` default (src/parent_agent.py:22). -/
def RESEARCH_AGENT_URL : Str := pyS "https://research-agent.onrender.com/research"

/-- `MESSAGING_AGENT_URL` default (src/parent_agent.py:23); declared by the
source but never used by any route. -/
def MESSAGING_AGENT_URL : Str := pyS "https://messaging-agent.onrender.com/notify"

/-- Source `call_agent` (src/parent_agent.py:146-153): POST the payload to a
child agent; any exception is caught and returned as status 500 with the
error text as body.  Totality of this function is the model of "never
raises"; the `timeout` argument only bounds the blocking time and has no
further observable effect, so it is not modelled. -/
def call_agent (url : Str) (payload : JVal) (w : World) : Nat × Str :=
  match w.agent url payload with
  | .resp s b => (s, b)
  | .exn e => (500, e)

/-- The payload construction of `create_task_in_notion`
(src/parent_agent.py:156-179).  `.get` calls raise `AttributeError` on a
non-dict argument and the `", ".join` raises `TypeError` on a non-joinable
action plan; both propagate to the endpoint's catch-all.  When `due_date` is
absent or falsy, the due date defaults to today's 23:59:00
(`datetime.now(IST).replace(hour=23, minute=59, second=0)`). -/
def build_notion_payload (task_data : JVal) (w : World) : Except Str NotionPayload :=
  match task_data with
  | .obj fs =>
    let due0 := objGetD fs (pyS "due_date") .null
    let due_date := if pyTruthy due0 then due0 else .str (isoformat (pyEndOfDay w.now))
    match pyJoin (pyS ", ") (objGetD fs (pyS "massive_action_plan") (.arr [])) with
    | .error e => .error e
    | .ok mapped =>
      .ok
        { task := objGetD fs (pyS "task_name") (.str (pyS "Untitled Task")),
          result := objGetD fs (pyS "result") (.str []),
          purpose := objGetD fs (pyS "purpose") (.str []),
          map := mapped,
          paeiRole := objGetD fs (pyS "paei_role") (.str (pyS "Producer")),
          status := objGetD fs (pyS "status") (.str (pyS "To Do")),
          xp := 0,
          dueDate := due_date,
          createdAt := isoformat w.now,
          source := objGetD fs (pyS "source") (.str (pyS "Parent Agent")),
          context := objGetD fs (pyS "context") (.str []) }
  | _ => .error (pyS "AttributeError")

/-- Source `create_task_in_notion` (src/parent_agent.py:156-193): build the
payload, POST it to the Notion pages API, and return `(200, id)` on a
200/201 response, else `(status, None)`.  The second component lists the
create calls actually issued (none when payload construction raised). -/
def create_task_in_notion (task_data : JVal) (w : World) :
    Except Str (Nat × Option Str) × List NotionPayload :=
  match build_notion_payload task_data w with
  | .error e => (.error e, [])
  | .ok payload =>
    if w.notionCreateStatus = 200 ∨ w.notionCreateStatus = 201 then
      (.ok (200, w.notionCreateId), [payload])
    else
      (.ok (w.notionCreateStatus, none), [payload])

/-- Source `update_notion_with_link` (src/parent_agent.py:196-210): PATCH a
link property onto a Notion page; the status is returned and otherwise
ignored by every caller.  The patch itself is recorded as an effect at each
call site. -/
def update_notion_with_link (w : World) : Nat := w.patchStatus

/-- The JSON error body `{"error": e}`. -/
def errBody (e : Str) : JVal := .obj [(pyS "error", .str e)]

/-- TASK branch of `route_message` (src/parent_agent.py:252-259): create the
task in Notion and answer 200 with the create outcome.  No downstream
handler is contacted in this branch. -/
def task_branch (intent_data : JVal) (w : World) : Except Str HttpResponse × Effects :=
  match create_task_in_notion intent_data w with
  | (.error e, cs) => (.error e, { creates := cs })
  | (.ok (nstat, nid), cs) =>
    (.ok ⟨200, .obj
        [(pyS "intent", .str (pyS "TASK")),
         (pyS "status", .str (pyS "Task created in Notion")),
         (pyS "notion_id", optToJVal nid),
         (pyS "notion_status", .num (nstat : Int))]⟩,
     { creates := cs })

/-- COMPLETION branch of `route_message` (src/parent_agent.py:262-269):
forward the parsed classifier output to the XP agent unconditionally and
answer 200 with the forwarding outcome.  No store lookup, no status
mutation, no Not-Found path exists in the source. -/
def completion_branch (intent_data : JVal) (w : World) : Except Str HttpResponse × Effects :=
  let r := call_agent XP_AGENT_URL intent_data w
  (.ok ⟨200, .obj
      [(pyS "intent", .str (pyS "COMPLETION")),
       (pyS "status", .str (pyS "Forwarded to XP Agent")),
       (pyS "xp_status", .num (r.1 : Int)),
       (pyS "xp_resp", .str r.2)]⟩,
   { posts := [(XP_AGENT_URL, intent_data)] })

/-- The link patch attempted in the CALENDAR branch's `try` block
(src/parent_agent.py:291-297): parse the calendar agent's response, read
`html_link`/`calendar_link`, and patch it onto the Notion page when both the
link and the page id are truthy; every failure inside the block is swallowed. -/
def calendar_link_patches (calResp : Str) (nid : Option Str) (w : World) :
    List (Str × Str × JVal) :=
  match w.loads calResp with
  | none => []
  | some calData =>
    match calData with
    | .obj cfs =>
      let html_link := pyOrJ (objGetD cfs (pyS "html_link") .null)
        (objGetD cfs (pyS "calendar_link") .null)
      if pyTruthy html_link && optStrTruthy nid then
        [(nid.getD [], pyS "Calendar Link", html_link)]
      else []
    | _ => []

/-- The summary task dict built by the CALENDAR branch
(src/parent_agent.py:273-284); the title falls back from `event_name` to
`title` to the original message. -/
def calendar_task_info (fs : List (Str × JVal)) (message : Str) : JVal :=
  .obj
    [(pyS "task_name", pyOrJ (objGetD fs (pyS "event_name") .null)
        (pyOrJ (objGetD fs (pyS "title") .null) (.str message))),
     (pyS "result", .str (pyS "Calendar event scheduled")),
     (pyS "purpose", .str (pyS "Manage meetings and events")),
     (pyS "massive_action_plan",
       .arr [.str (pyS "Schedule meeting"), .str (pyS "Confirm details")]),
     (pyS "paei_role", .str (pyS "Administrator")),
     (pyS "status", .str (pyS "To Do")),
     (pyS "context", objGetD fs (pyS "context") (.str message)),
     (pyS "source", .str (pyS "Parent Agent"))]

/-- CALENDAR branch of `route_message` (src/parent_agent.py:272-306): build a
summary task dict, create it in Notion, forward `{"message": message}` to the
calendar agent regardless of the create outcome, best-effort patch the
returned link, and answer 200. -/
def calendar_branch (fs : List (Str × JVal)) (message : Str) (w : World) :
    Except Str HttpResponse × Effects :=
  match create_task_in_notion (calendar_task_info fs message) w with
  | (.error e, cs) => (.error e, { creates := cs })
  | (.ok (nstat, nid), cs) =>
    let calendar_payload : JVal := .obj [(pyS "message", .str message)]
    let r := call_agent CALENDAR_AGENT_URL calendar_payload w
    (.ok ⟨200, .obj
        [(pyS "intent", .str (pyS "CALENDAR")),
         (pyS "status", .str (pyS "Forwarded to Calendar Agent")),
         (pyS "notion_id", optToJVal nid),
         (pyS "notion_status", .num (nstat : Int)),
         (pyS "cal_status", .num (r.1 : Int)),
         (pyS "cal_resp", .str r.2)]⟩,
     { creates := cs, posts := [(CALENDAR_AGENT_URL, calendar_payload)],
       patches := calendar_link_patches r.2 nid w })

/-- The link patch attempted in the EMAIL branch's `try` block
(src/parent_agent.py:324-331): parse the email agent's response, read
`brevo_response.messageId`, and patch a Brevo URL onto the Notion page when
both the id and the page id are truthy; failures are swallowed. -/
def email_link_patches (emailResp : Str) (nid : Option Str) (w : World) :
    List (Str × Str × JVal) :=
  match w.loads emailResp with
  | none => []
  | some emailData =>
    match emailData with
    | .obj efs =>
      match objGetD efs (pyS "brevo_response") (.obj []) with
      | .obj bfs =>
        let message_id := objGetD bfs (pyS "messageId") (.str [])
        if pyTruthy message_id && optStrTruthy nid then
          [(nid.getD [], pyS "Email Link",
            .str (pyS "https://app.brevo.com/email/" ++ pyStrJ message_id))]
        else []
      | _ => []
    | _ => []

/-- The summary task dict built by the EMAIL branch
(src/parent_agent.py:310-319); note the context default is the empty string
here, not the original message. -/
def email_task_info (fs : List (Str × JVal)) : JVal :=
  .obj
    [(pyS "task_name", .str (pyS "Email Communication")),
     (pyS "result", .str (pyS "Email draft sent")),
     (pyS "purpose", .str (pyS "Handle communication tasks")),
     (pyS "massive_action_plan",
       .arr [.str (pyS "Draft email"), .str (pyS "Send message")]),
     (pyS "paei_role", .str (pyS "Administrator")),
     (pyS "status", .str (pyS "To Do")),
     (pyS "context", objGetD fs (pyS "context") (.str [])),
     (pyS "source", .str (pyS "Parent Agent"))]

/-- EMAIL branch of `route_message` (src/parent_agent.py:309-340): create a
fixed summary task, overwrite the parsed output's `to` field with the
hard-coded fallback address, forward the result to the email agent
regardless of the create outcome, best-effort patch the Brevo link, and
answer 200. -/
def email_branch (fs : List (Str × JVal)) (w : World) : Except Str HttpResponse × Effects :=
  match create_task_in_notion (email_task_info fs) w with
  | (.error e, cs) => (.error e, { creates := cs })
  | (.ok (nstat, nid), cs) =>
    let intent_data2 : JVal :=
      .obj (objSet fs (pyS "to") (.str (pyS "narwadeaayush169@gmail.com")))
    let r := call_agent EMAIL_AGENT_URL intent_data2 w
    (.ok ⟨200, .obj
        [(pyS "intent", .str (pyS "EMAIL")),
         (pyS "status", .str (pyS "Forwarded to Email Agent")),
         (pyS "notion_id", optToJVal nid),
         (pyS "notion_status", .num (nstat : Int)),
         (pyS "email_status", .num (r.1 : Int)),
         (pyS "email_resp", .str r.2)]⟩,
     { creates := cs, posts := [(EMAIL_AGENT_URL, intent_data2)],
       patches := email_link_patches r.2 nid w })

/-- RESEARCH branch of `route_message` (src/parent_agent.py:343-357):
forward `{"query": ...}` to the research agent, no persistence, and answer
200 with the (parsed or raw) handler response. -/
def research_branch (fs : List (Str × JVal)) (message : Str) (w : World) :
    Except Str HttpResponse × Effects :=
  let research_payload : JVal :=
    .obj [(pyS "query", pyOrJ (objGetD fs (pyS "query") .null) (.str message))]
  let r := call_agent RESEARCH_AGENT_URL research_payload w
  let research_data :=
    match w.loads r.2 with
    | some d => d
    | none => .obj [(pyS "raw_response", .str r.2)]
  (.ok ⟨200, .obj
      [(pyS "intent", .str (pyS "RESEARCH")),
       (pyS "status", .str (pyS "Forwarded to Research Agent")),
       (pyS "research_status", .num (r.1 : Int)),
       (pyS "research_resp", research_data)]⟩,
   { posts := [(RESEARCH_AGENT_URL, research_payload)] })

/-- The fallback response `{"intent": "UNKNOWN", "raw": intent_data}`
(src/parent_agent.py:361). -/
def unknownBody (fs : List (Str × JVal)) : JVal :=
  .obj [(pyS "intent", .str (pyS "UNKNOWN")), (pyS "raw", .obj fs)]

/-- Intent extraction and branch selection of `route_message` on a parsed
dict (src/parent_agent.py:249-361): read `intent` (default `"UNKNOWN"`),
upper-case it (raising `AttributeError` on a non-string value), and select
the branch; any unrecognized value falls through to the UNKNOWN response. -/
def dispatchObj (fs : List (Str × JVal)) (message : Str) (w : World) :
    Except Str HttpResponse × Effects :=
  match pyUpperJ (objGetD fs (pyS "intent") (.str (pyS "UNKNOWN"))) with
  | .error e => (.error e, {})
  | .ok intent =>
    if intent = pyS "TASK" then task_branch (.obj fs) w
    else if intent = pyS "COMPLETION" then completion_branch (.obj fs) w
    else if intent = pyS "CALENDAR" then calendar_branch fs message w
    else if intent = pyS "EMAIL" then email_branch fs w
    else if intent = pyS "RESEARCH" then research_branch fs message w
    else (.ok ⟨200, unknownBody fs⟩, {})

/-- Dispatch on arbitrary parsed classifier output: `intent_data.get` raises
`AttributeError` when the parsed JSON is not an object
(src/parent_agent.py:249). -/
def route_dispatch (intent_data : JVal) (message : Str) (w : World) :
    Except Str HttpResponse × Effects :=
  match intent_data with
  | .obj fs => dispatchObj fs message w
  | _ => (.error (pyS "AttributeError"), {})

/-- Source `route_message` (src/parent_agent.py:219-365), the `/route`
endpoint.  `body = none` models a request body `get_json(force=True)` fails
to parse (the raised error reaches the catch-all).  Validation: a missing
`message` field defaults to `""`; an empty string after stripping answers
400 before the classifier is contacted.  An unconfigured Groq client answers
500.  Then the classifier is called, its output sanitized and parsed
(unparseable output answers 200/UNKNOWN with the raw text), and the request
is dispatched; any exception escaping the pipeline is caught by the
catch-all and answered as 500 with `{"error": str(e)}`. -/
def route_message (body : Option JVal) (w : World) : HttpResponse × Effects :=
  match body with
  | none => (⟨500, errBody (pyS "BadRequest")⟩, {})
  | some data =>
    match (jvGetD data (pyS "message") (.str [])).bind pyStripJ with
    | .error e => (⟨500, errBody e⟩, {})
    | .ok message =>
      if message.isEmpty then
        (⟨400, .obj [(pyS "error", .str (pyS "Missing 'message'"))]⟩, {})
      else if !w.clientConfigured then
        (⟨500, errBody (pyS "Groq client not configured")⟩, {})
      else
        match w.classifier with
        | .error e => (⟨500, errBody e⟩, { classifierCalls := 1 })
        | .ok content =>
          let raw := pyStrip content
          let cleaned_raw := clean_json_output raw
          match w.loads cleaned_raw with
          | none =>
            (⟨200, .obj
                [(pyS "intent", .str (pyS "UNKNOWN")),
                 (pyS "raw", .str raw),
                 (pyS "error", .str (pyS "JSONDecodeError"))]⟩,
             { classifierCalls := 1 })
          | some intent_data =>
            match route_dispatch intent_data message w with
            | (.ok resp, eff) => (resp, { eff with classifierCalls := eff.classifierCalls + 1 })
            | (.error e, eff) =>
              (⟨500, errBody e⟩, { eff with classifierCalls := eff.classifierCalls + 1 })

/-! ## Concrete fixtures for witnesses and counterexamples -/

/-- A fixed invocation instant: 2025-11-12T10:00:00+05:30 (the spec's
scenario time). -/
def dtNow : PyDateTime := ⟨2025, 11, 12, 10, 0, 0, 0⟩

/-- A world in which every collaborator responds successfully and collaborator
response bodies are not parseable JSON. -/
def okWorld : World :=
  { clientConfigured := true, classifier := .ok (pyS "x"), loads := fun _ => none,
    now := dtNow, notionCreateStatus := 200, notionCreateId := some (pyS "page-1"),
    agent := fun _ _ => .resp 200 (pyS "ok"), patchStatus := 200 }

/-- A world in which the Notion create call is rejected with HTTP 400. -/
def failCreateWorld : World :=
  { okWorld with notionCreateStatus := 400, notionCreateId := none }

/-- A world in which every downstream handler POST raises. -/
def exnWorld : World :=
  { okWorld with agent := fun _ _ => .exn (pyS "Connection timed out") }

/-- A world whose classifier output parses to `{"intent": null}`. -/
def nullIntentWorld : World :=
  { okWorld with loads := fun _ => some (.obj [(pyS "intent", JVal.null)]) }

/-- A parsed COMPLETION classification (spec name: COMPLETE_TASK) whose task
reference matches nothing in any store. -/
def completionFields : List (Str × JVal) :=
  [(pyS "intent", .str (pyS "COMPLETION")),
   (pyS "message", .str (pyS "I finished the task")),
   (pyS "context", .str (pyS "related to a task title stored nowhere")),
   (pyS "source", .str (pyS "Parent Agent"))]

/-- A parsed TASK classification with no `due_date`. -/
def taskNoDueFields : List (Str × JVal) :=
  [(pyS "intent", .str (pyS "TASK")),
   (pyS "task_name", .str (pyS "Call Aayush")),
   (pyS "context", .str (pyS "Remind me to call Aayush at 9pm")),
   (pyS "source", .str (pyS "Parent Agent"))]

/-- The Notion payload `create_task_in_notion` builds from
`taskNoDueFields` at `okWorld` (defaults filled, due date at 23:59). -/
def taskNoDuePayload : NotionPayload :=
  { task := .str (pyS "Call Aayush"), result := .str [], purpose := .str [],
    map := [], paeiRole := .str (pyS "Producer"), status := .str (pyS "To Do"),
    xp := 0, dueDate := .str (pyS "2025-11-12T23:59:00+05:30"),
    createdAt := pyS "2025-11-12T10:00:00+05:30",
    source := .str (pyS "Parent Agent"),
    context := .str (pyS "Remind me to call Aayush at 9pm") }

/-- A parsed TASK classification that carries a due date. -/
def taskDueFields : List (Str × JVal) :=
  [(pyS "intent", .str (pyS "TASK")),
   (pyS "task_name", .str (pyS "Call Aayush")),
   (pyS "due_date", .str (pyS "2025-11-12T21:00:00+05:30"))]

/-- A parsed CALENDAR classification. -/
def calendarFields : List (Str × JVal) :=
  [(pyS "intent", .str (pyS "CALENDAR")),
   (pyS "event_name", .str (pyS "Team Sync")),
   (pyS "context", .str (pyS "Schedule a team sync"))]

/-- A parsed EMAIL classification that carries an explicit recipient. -/
def emailFields : List (Str × JVal) :=
  [(pyS "intent", .str (pyS "EMAIL")),
   (pyS "to", .str (pyS "boss@example.com")),
   (pyS "subject", .str (pyS "Quarterly report")),
   (pyS "context", .str (pyS "Send the report"))]

/-- A parsed RESEARCH classification. -/
def researchFields : List (Str × JVal) :=
  [(pyS "intent", .str (pyS "RESEARCH")),
   (pyS "query", .str (pyS "generative AI in finance"))]

/-- An inbound request body with a non-empty message. -/
def hiBody : Option JVal := some (.obj [(pyS "message", .str (pyS "hi"))])

/-! ## String lemmas for the sanitizer -/

lemma dropWhile_all_prepend (p : Char → Bool) (pre l : Str)
    (hpre : ∀ c ∈ pre, p c = true) :
    (pre ++ l).dropWhile p = l.dropWhile p := by
  induction pre with
  | nil => rfl
  | cons c cs ih =>
    have hc : p c = true := hpre c (by simp)
    simp only [List.cons_append, List.dropWhile_cons, hc, if_true]
    exact ih (fun d hd => hpre d (by simp [hd]))

lemma rstripBy_append (p : Char → Bool) (l post : Str)
    (hpost : ∀ c ∈ post, p c = true) :
    rstripBy p (l ++ post) = rstripBy p l := by
  unfold rstripBy
  rw [List.reverse_append, dropWhile_all_prepend]
  intro c hc
  exact hpost c (by simpa using hc)

lemma rstripBy_last (p : Char → Bool) (l : Str) (b : Char) (hb : p b = false) :
    rstripBy p (l ++ [b]) = l ++ [b] := by
  unfold rstripBy
  rw [List.reverse_append]
  simp [List.dropWhile_cons, hb]

/-- Stripping a character class from both ends removes exactly a prefix and a
suffix of that class when the remaining core starts and ends outside it. -/
lemma stripBy_sandwich (p : Char → Bool) (pre post mid : Str) (a b : Char)
    (hpre : ∀ c ∈ pre, p c = true) (hpost : ∀ c ∈ post, p c = true)
    (ha : p a = false) (hb : p b = false) :
    stripBy p (pre ++ (a :: (mid ++ [b])) ++ post) = a :: (mid ++ [b]) := by
  unfold stripBy
  rw [List.append_assoc, dropWhile_all_prepend p pre _ hpre]
  have h1 : ((a :: (mid ++ [b])) ++ post).dropWhile p = (a :: (mid ++ [b])) ++ post := by
    simp [List.dropWhile_cons, ha]
  rw [h1, rstripBy_append p _ post hpost,
    show a :: (mid ++ [b]) = (a :: mid) ++ [b] from by simp,
    rstripBy_last p (a :: mid) b hb]

lemma stripBy_eq_self (p : Char → Bool) (mid : Str) (a b : Char)
    (ha : p a = false) (hb : p b = false) :
    stripBy p (a :: (mid ++ [b])) = a :: (mid ++ [b]) := by
  have h := stripBy_sandwich p [] [] mid a b (by simp) (by simp) ha hb
  simpa using h

/-- `stripBy_sandwich` specialized to whitespace stripping (`str.strip()`). -/
lemma pyStrip_sandwich (pre post mid : Str) (a b : Char)
    (hpre : ∀ c ∈ pre, isPySpace c = true) (hpost : ∀ c ∈ post, isPySpace c = true)
    (ha : isPySpace a = false) (hb : isPySpace b = false) :
    pyStrip (pre ++ (a :: (mid ++ [b])) ++ post) = a :: (mid ++ [b]) :=
  stripBy_sandwich isPySpace pre post mid a b hpre hpost ha hb

/-- `stripBy_eq_self` specialized to whitespace stripping. -/
lemma pyStrip_eq_self (mid : Str) (a b : Char)
    (ha : isPySpace a = false) (hb : isPySpace b = false) :
    pyStrip (a :: (mid ++ [b])) = a :: (mid ++ [b]) :=
  stripBy_eq_self isPySpace mid a b ha hb

lemma isPrefixOf_append_self (l r : Str) : l.isPrefixOf (l ++ r) = true := by
  induction l with
  | nil => cases r <;> rfl
  | cons c cs ih => simp [List.isPrefixOf, ih]

lemma replaceFirst_no_occ (pat repl l : Str) (h : hasSubstr pat l = false) :
    replaceFirst pat repl l = l := by
  induction l with
  | nil => rfl
  | cons c rest ih =>
    simp only [hasSubstr, Bool.or_eq_false_iff] at h
    simp [replaceFirst, h.1, ih h.2]

lemma replaceFirst_pat_front (c : Char) (cs rest : Str) :
    replaceFirst (c :: cs) [] ((c :: cs) ++ rest) = rest := by
  have hpre := isPrefixOf_append_self (c :: cs) rest
  have hdrop : ((c :: cs) ++ rest).drop (c :: cs).length = rest :=
    List.drop_left (c :: cs) rest
  simp only [List.cons_append] at hpre hdrop ⊢
  simp [replaceFirst, hpre, hdrop]

/-! ## C3: sanitizer on fenced input -/

/-- C3 (counterexample): the claim "for every JSON object text, sanitizing
the fence-wrapped text is byte-identical to sanitizing the unwrapped text"
is false: for the JSON object text `{"json": 1}` wrapped in plain
triple-backtick fences, the sanitizer's `replace("json", "", 1)` deletes the
`"json"` occurring inside the object itself. -/
theorem clean_json_output_fence_counterexample :
    clean_json_output (pyS "```\x7b\"json\": 1\x7d```") ≠
      clean_json_output (pyS "\x7b\"json\": 1\x7d") := by
  decide

/-- C3 (amended): sanitizing fenced-wrapped JSON-object text is byte-identical
to sanitizing the unwrapped text, where for a fence carrying the `json`
language tag this always holds, while for a bare (untagged) fence it holds
whenever the text does not contain the substring `"json"` (the
counterexample above shows the untagged case genuinely needs this side
condition). -/
theorem clean_json_output_fence_amended (mid : Str) :
    (clean_json_output (pyS "```json\n" ++ (lbrace :: (mid ++ [rbrace])) ++ pyS "\n```") =
       clean_json_output (lbrace :: (mid ++ [rbrace]))) ∧
    (hasSubstr (pyS "json") (lbrace :: (mid ++ [rbrace])) = false →
      clean_json_output (pyS "```" ++ (lbrace :: (mid ++ [rbrace])) ++ pyS "```") =
        clean_json_output (lbrace :: (mid ++ [rbrace]))) := by
  have hb : backtick = Char.ofNat 96 := rfl
  have hlb_ws : isPySpace lbrace = false := by decide
  have hrb_ws : isPySpace rbrace = false := by decide
  have hlb_bt : isBacktick lbrace = false := by decide
  have hrb_bt : isBacktick rbrace = false := by decide
  have hbt_ws : isPySpace backtick = false := by decide
  have hnl_bt : isBacktick '\n' = false := by decide
  have hj_bt : isBacktick 'j' = false := by decide
  have hstrip_t : pyStrip (lbrace :: (mid ++ [rbrace])) = lbrace :: (mid ++ [rbrace]) :=
    pyStrip_eq_self mid lbrace rbrace hlb_ws hrb_ws
  have hstartf : (pyS "```").isPrefixOf (lbrace :: (mid ++ [rbrace])) = false := by
    simp [pyS, List.isPrefixOf, lbrace, hb]
  -- the unwrapped text sanitizes without the fence-stripping branch
  have hplain : clean_json_output (lbrace :: (mid ++ [rbrace])) =
      pyStrip (replaceAll (pyS "```") [] (lbrace :: (mid ++ [rbrace]))) := by
    unfold clean_json_output
    rw [hstrip_t, hstartf]
    simp
  constructor
  · -- tagged fence  ```json\n ... \n```
    have hsh1 : pyS "```json\n" ++ (lbrace :: (mid ++ [rbrace])) ++ pyS "\n```" =
        backtick :: (((backtick :: backtick :: 'j' :: 's' :: 'o' :: 'n' :: '\n' ::
          (lbrace :: (mid ++ [rbrace]))) ++ ['\n', backtick, backtick]) ++ [backtick]) := by
      simp [pyS, hb]
    have hstrip1 : pyStrip (pyS "```json\n" ++ (lbrace :: (mid ++ [rbrace])) ++ pyS "\n```") =
        pyS "```json\n" ++ (lbrace :: (mid ++ [rbrace])) ++ pyS "\n```" := by
      conv_lhs => rw [hsh1]
      rw [pyStrip_eq_self _ backtick backtick hbt_ws hbt_ws, ← hsh1]
    have hsh2 : pyS "```json\n" ++ (lbrace :: (mid ++ [rbrace])) ++ pyS "\n```" =
        [backtick, backtick, backtick] ++
          ('j' :: ((['s', 'o', 'n', '\n'] ++ (lbrace :: (mid ++ [rbrace]))) ++ ['\n'])) ++
          [backtick, backtick, backtick] := by
      simp [pyS, hb]
    have hbtstrip : stripBy isBacktick
        (pyS "```json\n" ++ (lbrace :: (mid ++ [rbrace])) ++ pyS "\n```") =
        'j' :: ((['s', 'o', 'n', '\n'] ++ (lbrace :: (mid ++ [rbrace]))) ++ ['\n']) := by
      rw [hsh2]
      exact stripBy_sandwich isBacktick _ _ _ 'j' '\n' (by decide) (by decide) hj_bt hnl_bt
    have hsh3 : 'j' :: ((['s', 'o', 'n', '\n'] ++ (lbrace :: (mid ++ [rbrace]))) ++ ['\n']) =
        pyS "json" ++ ('\n' :: ((lbrace :: (mid ++ [rbrace])) ++ ['\n'])) := by
      simp [pyS]
    have hrf : replaceFirst (pyS "json") []
        ('j' :: ((['s', 'o', 'n', '\n'] ++ (lbrace :: (mid ++ [rbrace]))) ++ ['\n'])) =
        '\n' :: ((lbrace :: (mid ++ [rbrace])) ++ ['\n']) := by
      rw [hsh3]
      exact replaceFirst_pat_front 'j' ['s', 'o', 'n'] _
    have hsh4 : '\n' :: ((lbrace :: (mid ++ [rbrace])) ++ ['\n']) =
        ['\n'] ++ (lbrace :: (mid ++ [rbrace])) ++ ['\n'] := by simp
    have hstrip2 : pyStrip ('\n' :: ((lbrace :: (mid ++ [rbrace])) ++ ['\n'])) =
        lbrace :: (mid ++ [rbrace]) := by
      rw [hsh4]
      exact pyStrip_sandwich ['\n'] ['\n'] mid lbrace rbrace
        (by decide) (by decide) hlb_ws hrb_ws
    have hsh5 : pyS "```json\n" ++ (lbrace :: (mid ++ [rbrace])) ++ pyS "\n```" =
        pyS "```" ++ (pyS "json\n" ++ (lbrace :: (mid ++ [rbrace])) ++ pyS "\n```") := by
      simp [pyS]
    have hstart : (pyS "```").isPrefixOf
        (pyS "```json\n" ++ (lbrace :: (mid ++ [rbrace])) ++ pyS "\n```") = true := by
      rw [hsh5]
      exact isPrefixOf_append_self _ _
    rw [hplain]
    unfold clean_json_output
    rw [hstrip1, hstart]
    simp only [if_true]
    rw [hbtstrip, hrf, hstrip2]
  · -- bare fence  ``` ... ```
    intro hjson
    have hsh1 : pyS "```" ++ (lbrace :: (mid ++ [rbrace])) ++ pyS "```" =
        backtick :: (((backtick :: backtick :: (lbrace :: (mid ++ [rbrace]))) ++
          [backtick, backtick]) ++ [backtick]) := by
      simp [pyS, hb]
    have hstrip1 : pyStrip (pyS "```" ++ (lbrace :: (mid ++ [rbrace])) ++ pyS "```") =
        pyS "```" ++ (lbrace :: (mid ++ [rbrace])) ++ pyS "```" := by
      conv_lhs => rw [hsh1]
      rw [pyStrip_eq_self _ backtick backtick hbt_ws hbt_ws, ← hsh1]
    have hsh2 : pyS "```" ++ (lbrace :: (mid ++ [rbrace])) ++ pyS "```" =
        [backtick, backtick, backtick] ++ (lbrace :: (mid ++ [rbrace])) ++
          [backtick, backtick, backtick] := by
      simp [pyS, hb]
    have hbtstrip : stripBy isBacktick
        (pyS "```" ++ (lbrace :: (mid ++ [rbrace])) ++ pyS "```") =
        lbrace :: (mid ++ [rbrace]) := by
      rw [hsh2]
      exact stripBy_sandwich isBacktick _ _ mid lbrace rbrace
        (by decide) (by decide) hlb_bt hrb_bt
    have hrf : replaceFirst (pyS "json") [] (lbrace :: (mid ++ [rbrace])) =
        lbrace :: (mid ++ [rbrace]) :=
      replaceFirst_no_occ _ _ _ hjson
    have hstart : (pyS "```").isPrefixOf
        (pyS "```" ++ (lbrace :: (mid ++ [rbrace])) ++ pyS "```") = true := by
      rw [List.append_assoc]
      exact isPrefixOf_append_self _ _
    rw [hplain]
    unfold clean_json_output
    rw [hstrip1, hstart]
    simp only [if_true]
    rw [hbtstrip, hrf, hstrip_t]

/-- C3 witness: the amended equivalence evaluated on the concrete JSON object
text `{"a": 1}` (bare fence form; the side condition holds there). -/
theorem clean_json_output_fence_amended_witness :
    hasSubstr (pyS "json") (lbrace :: (pyS "\"a\": 1" ++ [rbrace])) = false ∧
    clean_json_output (pyS "```" ++ (lbrace :: (pyS "\"a\": 1" ++ [rbrace])) ++ pyS "```") =
      clean_json_output (lbrace :: (pyS "\"a\": 1" ++ [rbrace])) :=
  ⟨by decide, (clean_json_output_fence_amended (pyS "\"a\": 1")).2 (by decide)⟩

/-! ## Dispatch helper lemmas -/

/-- When the parsed object's `intent` field is a string, dispatch selects the
branch by the upper-cased value only. -/
lemma dispatch_intent_str (fs : List (Str × JVal)) (m : Str) (w : World) (v : Str)
    (h : objGetD fs (pyS "intent") (.str (pyS "UNKNOWN")) = .str v) :
    route_dispatch (.obj fs) m w =
      (if pyUpper v = pyS "TASK" then task_branch (.obj fs) w
       else if pyUpper v = pyS "COMPLETION" then completion_branch (.obj fs) w
       else if pyUpper v = pyS "CALENDAR" then calendar_branch fs m w
       else if pyUpper v = pyS "EMAIL" then email_branch fs w
       else if pyUpper v = pyS "RESEARCH" then research_branch fs m w
       else (.ok ⟨200, unknownBody fs⟩, {})) := by
  simp [route_dispatch, dispatchObj, h, pyUpperJ]

/-- When intent extraction raises, dispatch returns the error with no
effects. -/
lemma dispatch_intent_err (fs : List (Str × JVal)) (m : Str) (w : World) (e : Str)
    (h : pyUpperJ (objGetD fs (pyS "intent") (.str (pyS "UNKNOWN"))) = .error e) :
    route_dispatch (.obj fs) m w = (.error e, {}) := by
  simp [route_dispatch, dispatchObj, h]

/-- A failing Notion create (non-2xx) returns `(status, None)` and still
counts as an issued create call. -/
lemma create_task_fail (td : JVal) (w : World) (p : NotionPayload)
    (hb : build_notion_payload td w = .ok p)
    (hfail : ¬(w.notionCreateStatus = 200 ∨ w.notionCreateStatus = 201)) :
    create_task_in_notion td w = (.ok (w.notionCreateStatus, none), [p]) := by
  unfold create_task_in_notion
  rw [hb]
  simp [hfail]

/-- A successful Notion create (2xx) returns `(200, id)`. -/
lemma create_task_ok (td : JVal) (w : World) (p : NotionPayload)
    (hb : build_notion_payload td w = .ok p)
    (hok : w.notionCreateStatus = 200 ∨ w.notionCreateStatus = 201) :
    create_task_in_notion td w = (.ok (200, w.notionCreateId), [p]) := by
  unfold create_task_in_notion
  rw [hb]
  simp [hok]

/-- The payload built from the CALENDAR branch's summary dict: every default
of the dict evaluated, due date defaulted to today's 23:59. -/
lemma build_calendar_info (fs : List (Str × JVal)) (m : Str) (w : World) :
    build_notion_payload (calendar_task_info fs m) w = .ok
      { task := pyOrJ (objGetD fs (pyS "event_name") .null)
          (pyOrJ (objGetD fs (pyS "title") .null) (.str m)),
        result := .str (pyS "Calendar event scheduled"),
        purpose := .str (pyS "Manage meetings and events"),
        map := pyS "Schedule meeting, Confirm details",
        paeiRole := .str (pyS "Administrator"),
        status := .str (pyS "To Do"),
        xp := 0,
        dueDate := .str (isoformat (pyEndOfDay w.now)),
        createdAt := isoformat w.now,
        source := .str (pyS "Parent Agent"),
        context := objGetD fs (pyS "context") (.str m) } := rfl

/-- The payload built from the EMAIL branch's summary dict. -/
lemma build_email_info (fs : List (Str × JVal)) (w : World) :
    build_notion_payload (email_task_info fs) w = .ok
      { task := .str (pyS "Email Communication"),
        result := .str (pyS "Email draft sent"),
        purpose := .str (pyS "Handle communication tasks"),
        map := pyS "Draft email, Send message",
        paeiRole := .str (pyS "Administrator"),
        status := .str (pyS "To Do"),
        xp := 0,
        dueDate := .str (isoformat (pyEndOfDay w.now)),
        createdAt := isoformat w.now,
        source := .str (pyS "Parent Agent"),
        context := objGetD fs (pyS "context") (.str []) } := rfl

/-! ## C1: COMPLETION requests and the experience handler -/

/-- C1 (counterexample): the claim says a COMPLETE_TASK request whose task
name matches no stored record answers Not-Found and never calls the
experience handler.  On the source, the COMPLETION branch performs no store
lookup at all: for this concrete request (whose task reference matches
nothing in any store) the XP agent is still POSTed and the response is a
200 "Forwarded to XP Agent", not a Not-Found. -/
theorem route_completion_counterexample :
    (route_dispatch (.obj completionFields) (pyS "I finished the task") okWorld).2.posts =
      [(XP_AGENT_URL, .obj completionFields)] ∧
    (route_dispatch (.obj completionFields) (pyS "I finished the task") okWorld).1 =
      .ok ⟨200, .obj
        [(pyS "intent", .str (pyS "COMPLETION")),
         (pyS "status", .str (pyS "Forwarded to XP Agent")),
         (pyS "xp_status", .num 200),
         (pyS "xp_resp", .str (pyS "ok"))]⟩ :=
  ⟨rfl, rfl⟩

/-- C1 (amended): every request classified COMPLETION is forwarded to the
experience handler unconditionally; no store query, no status mutation and
no Not-Found response exist in this branch (the only effect is the single
XP-agent POST, and the response is always 200 "Forwarded to XP Agent"). -/
theorem completion_forward_unconditional (fs : List (Str × JVal)) (m : Str) (w : World)
    (v : Str)
    (h : objGetD fs (pyS "intent") (.str (pyS "UNKNOWN")) = .str v)
    (h2 : pyUpper v = pyS "COMPLETION") :
    route_dispatch (.obj fs) m w =
      (.ok ⟨200, .obj
          [(pyS "intent", .str (pyS "COMPLETION")),
           (pyS "status", .str (pyS "Forwarded to XP Agent")),
           (pyS "xp_status", .num ((call_agent XP_AGENT_URL (.obj fs) w).1 : Int)),
           (pyS "xp_resp", .str (call_agent XP_AGENT_URL (.obj fs) w).2)]⟩,
       { posts := [(XP_AGENT_URL, .obj fs)] }) := by
  rw [dispatch_intent_str fs m w v h, h2,
    if_neg (by decide : ¬(pyS "COMPLETION" = pyS "TASK")), if_pos rfl]
  rfl

/-- C1 witness: the amended theorem evaluated at the concrete COMPLETION
request and all-success world. -/
theorem completion_forward_unconditional_witness :
    route_dispatch (.obj completionFields) (pyS "m") okWorld =
      (.ok ⟨200, .obj
          [(pyS "intent", .str (pyS "COMPLETION")),
           (pyS "status", .str (pyS "Forwarded to XP Agent")),
           (pyS "xp_status", .num 200),
           (pyS "xp_resp", .str (pyS "ok"))]⟩,
       { posts := [(XP_AGENT_URL, .obj completionFields)] }) :=
  completion_forward_unconditional completionFields (pyS "m") okWorld (pyS "COMPLETION") rfl rfl

/-! ## C2: default due instant -/

/-- C2 (counterexample): the claim says a TASK with absent `due_date` gets
the invocation time as due instant.  At invocation time
2025-11-12T10:00:00+05:30 the source instead persists
2025-11-12T23:59:00+05:30 (today at 23:59), which differs from the
invocation instant. -/
theorem due_default_counterexample :
    (build_notion_payload (.obj taskNoDueFields) okWorld).map (fun p => p.dueDate) =
      .ok (.str (pyS "2025-11-12T23:59:00+05:30")) ∧
    isoformat okWorld.now = pyS "2025-11-12T10:00:00+05:30" ∧
    (pyS "2025-11-12T23:59:00+05:30" : Str) ≠ pyS "2025-11-12T10:00:00+05:30" :=
  ⟨rfl, rfl, by decide⟩

/-- C2 (amended): when the classifier output's `due_date` is absent (or any
falsy value), the persisted record's due instant is the invocation date with
the time-of-day replaced by 23:59:00 (microseconds of the clock reading are
kept), not the invocation time itself. -/
theorem due_default_end_of_day (fs : List (Str × JVal)) (w : World) (p : NotionPayload)
    (h : pyTruthy (objGetD fs (pyS "due_date") JVal.null) = false)
    (hp : build_notion_payload (.obj fs) w = .ok p) :
    p.dueDate = .str (isoformat (pyEndOfDay w.now)) := by
  simp only [build_notion_payload, h, Bool.false_eq_true, if_false] at hp
  rcases hj : pyJoin (pyS ", ") (objGetD fs (pyS "massive_action_plan") (.arr [])) with e | mp
  · rw [hj] at hp
    exact absurd hp (by simp)
  · rw [hj] at hp
    simp only [Except.ok.injEq] at hp
    rw [← hp]

/-- C2 witness: the amended theorem evaluated at the concrete TASK request
without a due date, at invocation instant 2025-11-12T10:00:00+05:30. -/
theorem due_default_end_of_day_witness :
    pyTruthy (objGetD taskNoDueFields (pyS "due_date") JVal.null) = false ∧
    taskNoDuePayload.dueDate = .str (isoformat (pyEndOfDay okWorld.now)) :=
  ⟨rfl, due_default_end_of_day taskNoDueFields okWorld taskNoDuePayload rfl rfl⟩

/-! ## C4: persistence-create failure and downstream calls -/

/-- C4 (counterexample): the claim says a failed store create is surfaced and
no downstream handler call is attempted.  For this concrete CALENDAR request
in a world whose Notion create is rejected with HTTP 400, the calendar agent
is still POSTed and the overall response is a 200 whose only trace of the
failure is the `notion_status` field. -/
theorem create_failure_counterexample :
    (route_dispatch (.obj calendarFields) (pyS "Schedule a team sync") failCreateWorld).2.posts =
      [(CALENDAR_AGENT_URL, .obj [(pyS "message", .str (pyS "Schedule a team sync"))])] ∧
    (route_dispatch (.obj calendarFields) (pyS "Schedule a team sync") failCreateWorld).1 =
      .ok ⟨200, .obj
        [(pyS "intent", .str (pyS "CALENDAR")),
         (pyS "status", .str (pyS "Forwarded to Calendar Agent")),
         (pyS "notion_id", .null),
         (pyS "notion_status", .num 400),
         (pyS "cal_status", .num 200),
         (pyS "cal_resp", .str (pyS "ok"))]⟩ :=
  ⟨rfl, rfl⟩

/-- C4 (amended): when the store rejects the create (non-2xx, no identifier),
the CALENDAR and EMAIL branches still attempt the downstream handler call;
the failure is reported to the caller only through the `notion_status` field
of a 200 response (with `notion_id` null), not as a failed request.  (The
TASK branch never makes a downstream call, failing create or not.) -/
theorem create_failure_still_forwards (fs : List (Str × JVal)) (m : Str) (w : World)
    (v : Str)
    (hfail : ¬(w.notionCreateStatus = 200 ∨ w.notionCreateStatus = 201)) :
    (objGetD fs (pyS "intent") (.str (pyS "UNKNOWN")) = .str v →
      pyUpper v = pyS "CALENDAR" →
      (route_dispatch (.obj fs) m w).2.posts =
        [(CALENDAR_AGENT_URL, .obj [(pyS "message", .str m)])] ∧
      (route_dispatch (.obj fs) m w).1 = .ok ⟨200, .obj
        [(pyS "intent", .str (pyS "CALENDAR")),
         (pyS "status", .str (pyS "Forwarded to Calendar Agent")),
         (pyS "notion_id", .null),
         (pyS "notion_status", .num (w.notionCreateStatus : Int)),
         (pyS "cal_status",
           .num ((call_agent CALENDAR_AGENT_URL (.obj [(pyS "message", .str m)]) w).1 : Int)),
         (pyS "cal_resp",
           .str (call_agent CALENDAR_AGENT_URL (.obj [(pyS "message", .str m)]) w).2)]⟩) ∧
    (objGetD fs (pyS "intent") (.str (pyS "UNKNOWN")) = .str v →
      pyUpper v = pyS "EMAIL" →
      (route_dispatch (.obj fs) m w).2.posts =
        [(EMAIL_AGENT_URL,
          .obj (objSet fs (pyS "to") (.str (pyS "narwadeaayush169@gmail.com"))))] ∧
      (route_dispatch (.obj fs) m w).1 = .ok ⟨200, .obj
        [(pyS "intent", .str (pyS "EMAIL")),
         (pyS "status", .str (pyS "Forwarded to Email Agent")),
         (pyS "notion_id", .null),
         (pyS "notion_status", .num (w.notionCreateStatus : Int)),
         (pyS "email_status",
           .num ((call_agent EMAIL_AGENT_URL
             (.obj (objSet fs (pyS "to") (.str (pyS "narwadeaayush169@gmail.com")))) w).1 : Int)),
         (pyS "email_resp",
           .str (call_agent EMAIL_AGENT_URL
             (.obj (objSet fs (pyS "to") (.str (pyS "narwadeaayush169@gmail.com")))) w).2)]⟩) := by
  constructor
  · intro h h2
    rw [dispatch_intent_str fs m w v h, h2,
      if_neg (by decide : ¬(pyS "CALENDAR" = pyS "TASK")),
      if_neg (by decide : ¬(pyS "CALENDAR" = pyS "COMPLETION")), if_pos rfl]
    unfold calendar_branch
    rw [create_task_fail _ w _ (build_calendar_info fs m w) hfail]
    exact ⟨rfl, rfl⟩
  · intro h h2
    rw [dispatch_intent_str fs m w v h, h2,
      if_neg (by decide : ¬(pyS "EMAIL" = pyS "TASK")),
      if_neg (by decide : ¬(pyS "EMAIL" = pyS "COMPLETION")),
      if_neg (by decide : ¬(pyS "EMAIL" = pyS "CALENDAR")), if_pos rfl]
    unfold email_branch
    rw [create_task_fail _ w _ (build_email_info fs w) hfail]
    exact ⟨rfl, rfl⟩

/-- C4 witness: the amended theorem evaluated at the concrete CALENDAR and
EMAIL requests against the world whose Notion create fails with 400. -/
theorem create_failure_still_forwards_witness :
    ((route_dispatch (.obj calendarFields) (pyS "meet") failCreateWorld).2.posts =
      [(CALENDAR_AGENT_URL, .obj [(pyS "message", .str (pyS "meet"))])] ∧
     (route_dispatch (.obj calendarFields) (pyS "meet") failCreateWorld).1 = .ok ⟨200, .obj
        [(pyS "intent", .str (pyS "CALENDAR")),
         (pyS "status", .str (pyS "Forwarded to Calendar Agent")),
         (pyS "notion_id", .null),
         (pyS "notion_status", .num 400),
         (pyS "cal_status", .num 200),
         (pyS "cal_resp", .str (pyS "ok"))]⟩) ∧
    ((route_dispatch (.obj emailFields) (pyS "mail") failCreateWorld).2.posts =
      [(EMAIL_AGENT_URL,
        .obj (objSet emailFields (pyS "to") (.str (pyS "narwadeaayush169@gmail.com"))))] ∧
     (route_dispatch (.obj emailFields) (pyS "mail") failCreateWorld).1 = .ok ⟨200, .obj
        [(pyS "intent", .str (pyS "EMAIL")),
         (pyS "status", .str (pyS "Forwarded to Email Agent")),
         (pyS "notion_id", .null),
         (pyS "notion_status", .num 400),
         (pyS "email_status", .num 200),
         (pyS "email_resp", .str (pyS "ok"))]⟩) :=
  ⟨(create_failure_still_forwards calendarFields (pyS "meet") failCreateWorld
      (pyS "CALENDAR") (by decide)).1 rfl rfl,
   (create_failure_still_forwards emailFields (pyS "mail") failCreateWorld
      (pyS "EMAIL") (by decide)).2 rfl rfl⟩

/-! ## C5: EMAIL recipient handling -/

/-- C5 (counterexample): the claim says a recipient present in the classifier
output is forwarded unchanged, the fallback being used only when absent.  For
this concrete EMAIL request carrying `to = boss@example.com`, the payload
POSTed to the email agent carries the hard-coded fallback address instead. -/
theorem email_recipient_counterexample :
    lookupField emailFields (pyS "to") = some (.str (pyS "boss@example.com")) ∧
    (route_dispatch (.obj emailFields) (pyS "m") okWorld).2.posts =
      [(EMAIL_AGENT_URL, .obj
        [(pyS "intent", .str (pyS "EMAIL")),
         (pyS "to", .str (pyS "narwadeaayush169@gmail.com")),
         (pyS "subject", .str (pyS "Quarterly report")),
         (pyS "context", .str (pyS "Send the report"))])] ∧
    (pyS "narwadeaayush169@gmail.com" : Str) ≠ pyS "boss@example.com" :=
  ⟨rfl, rfl, by decide⟩

/-- C5 (amended): every EMAIL-classified request has its `to` field
overwritten with the configured fallback address before forwarding,
regardless of whether the classifier output carried a recipient. -/
theorem email_recipient_always_overwritten (fs : List (Str × JVal)) (m : Str) (w : World)
    (v : Str)
    (h : objGetD fs (pyS "intent") (.str (pyS "UNKNOWN")) = .str v)
    (h2 : pyUpper v = pyS "EMAIL") :
    (route_dispatch (.obj fs) m w).2.posts =
      [(EMAIL_AGENT_URL,
        .obj (objSet fs (pyS "to") (.str (pyS "narwadeaayush169@gmail.com"))))] := by
  rw [dispatch_intent_str fs m w v h, h2,
    if_neg (by decide : ¬(pyS "EMAIL" = pyS "TASK")),
    if_neg (by decide : ¬(pyS "EMAIL" = pyS "COMPLETION")),
    if_neg (by decide : ¬(pyS "EMAIL" = pyS "CALENDAR")), if_pos rfl]
  unfold email_branch
  by_cases hcs : w.notionCreateStatus = 200 ∨ w.notionCreateStatus = 201
  · rw [create_task_ok _ w _ (build_email_info fs w) hcs]
  · rw [create_task_fail _ w _ (build_email_info fs w) hcs]

/-- C5 witness: the amended theorem evaluated at the concrete EMAIL request
whose classifier output carries an explicit recipient. -/
theorem email_recipient_always_overwritten_witness :
    (route_dispatch (.obj emailFields) (pyS "m") okWorld).2.posts =
      [(EMAIL_AGENT_URL,
        .obj (objSet emailFields (pyS "to") (.str (pyS "narwadeaayush169@gmail.com"))))] :=
  email_recipient_always_overwritten emailFields (pyS "m") okWorld (pyS "EMAIL") rfl rfl

/-! ## C6: TASK branch and the calendar handler -/

/-- C6 (counterexample): the claim says a TASK whose record carries a due
instant is forwarded to the calendar handler with the returned link patched
back.  For this concrete TASK request with a due date, the source makes no
downstream POST and no patch at all. -/
theorem task_no_calendar_counterexample :
    pyTruthy (objGetD taskDueFields (pyS "due_date") .null) = true ∧
    (route_dispatch (.obj taskDueFields) (pyS "m") okWorld).2.posts = [] ∧
    (route_dispatch (.obj taskDueFields) (pyS "m") okWorld).2.patches = [] :=
  ⟨rfl, rfl, rfl⟩

/-- C6 (amended): the TASK branch only creates the record and responds; it
never forwards to the calendar handler and never patches a link, whether or
not a due instant is present. -/
theorem task_branch_never_forwards (fs : List (Str × JVal)) (m : Str) (w : World)
    (v : Str)
    (h : objGetD fs (pyS "intent") (.str (pyS "UNKNOWN")) = .str v)
    (h2 : pyUpper v = pyS "TASK") :
    (route_dispatch (.obj fs) m w).2.posts = [] ∧
    (route_dispatch (.obj fs) m w).2.patches = [] := by
  rw [dispatch_intent_str fs m w v h, h2, if_pos rfl]
  rcases hcr : create_task_in_notion (.obj fs) w with ⟨res, cs⟩
  cases res <;> simp [task_branch, hcr]

/-- C6 witness: the amended theorem evaluated at the concrete TASK request
with a due date present. -/
theorem task_branch_never_forwards_witness :
    (route_dispatch (.obj taskDueFields) (pyS "m") okWorld).2.posts = [] ∧
    (route_dispatch (.obj taskDueFields) (pyS "m") okWorld).2.patches = [] :=
  task_branch_never_forwards taskDueFields (pyS "m") okWorld (pyS "TASK") rfl rfl

/-! ## C7: intent extraction -/

/-- C7 (counterexample): the claim says every unrecognized or missing intent
value, of any shape, yields the UNKNOWN outcome.  For a classifier output
parsing to `{"intent": null}`, `.upper()` on `None` raises, the endpoint's
catch-all answers a 500 error body, and the response carries no `intent`
field at all — not the UNKNOWN outcome. -/
theorem intent_nonstring_counterexample :
    route_message hiBody nullIntentWorld =
      (⟨500, errBody (pyS "AttributeError")⟩, { classifierCalls := 1 }) ∧
    (match (route_message hiBody nullIntentWorld).1.body with
     | .obj bfs => lookupField bfs (pyS "intent")
     | _ => none) = none :=
  ⟨rfl, rfl⟩

/-- C7 (amended): the `intent` field is read case-insensitively for
string-valued intents (the branch depends only on the upper-cased value);
a missing key or unrecognized string yields the UNKNOWN outcome with no side
effects; but a non-string intent value raises an `AttributeError` inside
dispatch (with no side effects), which the endpoint's catch-all surfaces as
a 500 error response rather than the UNKNOWN outcome. -/
theorem intent_resolution_amended :
    (∀ (fs : List (Str × JVal)) (m : Str) (w : World) (v : Str),
      objGetD fs (pyS "intent") (.str (pyS "UNKNOWN")) = .str v →
      route_dispatch (.obj fs) m w =
        (if pyUpper v = pyS "TASK" then task_branch (.obj fs) w
         else if pyUpper v = pyS "COMPLETION" then completion_branch (.obj fs) w
         else if pyUpper v = pyS "CALENDAR" then calendar_branch fs m w
         else if pyUpper v = pyS "EMAIL" then email_branch fs w
         else if pyUpper v = pyS "RESEARCH" then research_branch fs m w
         else (.ok ⟨200, unknownBody fs⟩, {}))) ∧
    (∀ (fs : List (Str × JVal)) (m : Str) (w : World) (u : Str),
      pyUpperJ (objGetD fs (pyS "intent") (.str (pyS "UNKNOWN"))) = .ok u →
      u ≠ pyS "TASK" → u ≠ pyS "COMPLETION" → u ≠ pyS "CALENDAR" →
      u ≠ pyS "EMAIL" → u ≠ pyS "RESEARCH" →
      route_dispatch (.obj fs) m w = (.ok ⟨200, unknownBody fs⟩, {})) ∧
    (∀ (fs : List (Str × JVal)) (m : Str) (w : World),
      (∀ s, objGetD fs (pyS "intent") (.str (pyS "UNKNOWN")) ≠ .str s) →
      route_dispatch (.obj fs) m w = (.error (pyS "AttributeError"), {})) ∧
    (∀ (w : World) (bfs dfs : List (Str × JVal)) (m0 content : Str),
      lookupField bfs (pyS "message") = some (.str m0) →
      (pyStrip m0).isEmpty = false →
      w.clientConfigured = true →
      w.classifier = .ok content →
      w.loads (clean_json_output (pyStrip content)) = some (.obj dfs) →
      (∀ s, objGetD dfs (pyS "intent") (.str (pyS "UNKNOWN")) ≠ .str s) →
      route_message (some (.obj bfs)) w =
        (⟨500, errBody (pyS "AttributeError")⟩, { classifierCalls := 1 })) := by
  have herr : ∀ (fs : List (Str × JVal)) (m : Str) (w : World),
      (∀ s, objGetD fs (pyS "intent") (.str (pyS "UNKNOWN")) ≠ .str s) →
      route_dispatch (.obj fs) m w = (.error (pyS "AttributeError"), {}) := by
    intro fs m w hns
    rcases hv : objGetD fs (pyS "intent") (.str (pyS "UNKNOWN")) with _ | b | n | s | l | o
    · exact dispatch_intent_err fs m w _ (by rw [hv]; rfl)
    · exact dispatch_intent_err fs m w _ (by rw [hv]; rfl)
    · exact dispatch_intent_err fs m w _ (by rw [hv]; rfl)
    · exact absurd hv (hns s)
    · exact dispatch_intent_err fs m w _ (by rw [hv]; rfl)
    · exact dispatch_intent_err fs m w _ (by rw [hv]; rfl)
  refine ⟨fun fs m w v h => dispatch_intent_str fs m w v h, ?_, herr, ?_⟩
  · intro fs m w u hu h1 h2 h3 h4 h5
    rcases hv : objGetD fs (pyS "intent") (.str (pyS "UNKNOWN")) with _ | b | n | s | l | o <;>
      rw [hv] at hu <;> simp [pyUpperJ] at hu
    rw [dispatch_intent_str fs m w s hv, hu,
      if_neg h1, if_neg h2, if_neg h3, if_neg h4, if_neg h5]
  · intro w bfs dfs m0 content hmsg hne hconf hcls hloads hns
    have h1 : (jvGetD (.obj bfs) (pyS "message") (.str [])).bind pyStripJ =
        .ok (pyStrip m0) := by
      simp [jvGetD, objGetD, hmsg, pyStripJ, Except.bind]
    have h2 := herr dfs (pyStrip m0) w hns
    simp [route_message, h1, hne, hconf, hcls, hloads, h2]

/-- C7 witness: the amended theorem evaluated concretely — an unrecognized
string intent (`"MESSAGE"`) yields the UNKNOWN outcome with no effects, and a
`null` intent yields the 500 error response with only the classifier call as
effect. -/
theorem intent_resolution_amended_witness :
    route_dispatch (.obj [(pyS "intent", .str (pyS "MESSAGE"))]) (pyS "m") okWorld =
      (.ok ⟨200, unknownBody [(pyS "intent", .str (pyS "MESSAGE"))]⟩, {}) ∧
    route_message hiBody nullIntentWorld =
      (⟨500, errBody (pyS "AttributeError")⟩, { classifierCalls := 1 }) :=
  ⟨intent_resolution_amended.2.1 [(pyS "intent", .str (pyS "MESSAGE"))] (pyS "m") okWorld
      (pyS "MESSAGE") rfl (by decide) (by decide) (by decide) (by decide) (by decide),
   intent_resolution_amended.2.2.2 nullIntentWorld [(pyS "message", .str (pyS "hi"))]
      [(pyS "intent", JVal.null)] (pyS "hi") (pyS "x") rfl rfl rfl rfl rfl
      (fun s h => JVal.noConfusion h)⟩

/-! ## C8: no store create for RESEARCH / MESSAGE / UNKNOWN -/

/-- C8: whenever the resolved intent is RESEARCH, MESSAGE, or anything that
falls through to UNKNOWN (unrecognized string, missing field, or a value
whose `.upper()` raises), no create call is issued against the document
store. -/
theorem no_create_for_research_message_unknown :
    (∀ (fs : List (Str × JVal)) (m : Str) (w : World) (u : Str),
      pyUpperJ (objGetD fs (pyS "intent") (.str (pyS "UNKNOWN"))) = .ok u →
      (u = pyS "RESEARCH" ∨ u = pyS "MESSAGE" ∨
        (u ≠ pyS "TASK" ∧ u ≠ pyS "COMPLETION" ∧ u ≠ pyS "CALENDAR" ∧ u ≠ pyS "EMAIL")) →
      (route_dispatch (.obj fs) m w).2.creates = []) ∧
    (∀ (fs : List (Str × JVal)) (m : Str) (w : World) (e : Str),
      pyUpperJ (objGetD fs (pyS "intent") (.str (pyS "UNKNOWN"))) = .error e →
      (route_dispatch (.obj fs) m w).2.creates = []) := by
  constructor
  · intro fs m w u hu hcase
    rcases hv : objGetD fs (pyS "intent") (.str (pyS "UNKNOWN")) with _ | b | n | s | l | o <;>
      rw [hv] at hu <;> simp [pyUpperJ] at hu
    rw [dispatch_intent_str fs m w s hv, hu]
    rcases hcase with hr | hm | ⟨h1, h2, h3, h4⟩
    · rw [hr]
      rw [if_neg (by decide : ¬(pyS "RESEARCH" = pyS "TASK")),
        if_neg (by decide : ¬(pyS "RESEARCH" = pyS "COMPLETION")),
        if_neg (by decide : ¬(pyS "RESEARCH" = pyS "CALENDAR")),
        if_neg (by decide : ¬(pyS "RESEARCH" = pyS "EMAIL")), if_pos rfl]
      rfl
    · rw [hm]
      rfl
    · rw [if_neg h1, if_neg h2, if_neg h3, if_neg h4]
      by_cases h5 : u = pyS "RESEARCH"
      · rw [if_pos h5]
        rfl
      · rw [if_neg h5]
  · intro fs m w e hu
    rw [dispatch_intent_err fs m w e hu]

/-- C8 witness: evaluated concretely for a RESEARCH request, a MESSAGE
request, and a null (unresolvable) intent. -/
theorem no_create_for_research_message_unknown_witness :
    (route_dispatch (.obj researchFields) (pyS "m") okWorld).2.creates = [] ∧
    (route_dispatch (.obj [(pyS "intent", .str (pyS "MESSAGE"))]) (pyS "m") okWorld).2.creates = [] ∧
    (route_dispatch (.obj [(pyS "intent", JVal.null)]) (pyS "m") okWorld).2.creates = [] :=
  ⟨no_create_for_research_message_unknown.1 researchFields (pyS "m") okWorld
      (pyS "RESEARCH") rfl (Or.inl rfl),
   no_create_for_research_message_unknown.1 [(pyS "intent", .str (pyS "MESSAGE"))]
      (pyS "m") okWorld (pyS "MESSAGE") rfl (Or.inr (Or.inl rfl)),
   no_create_for_research_message_unknown.2 [(pyS "intent", JVal.null)]
      (pyS "m") okWorld (pyS "AttributeError") rfl⟩

/-! ## C9: the downstream forwarder never raises -/

/-- C9: `call_agent` is a total function of the network outcome (its totality
is the model of "never raises past its own boundary"); an HTTP response is
returned as-is, and a raised network exception is captured as status 500
with the error text as the body. -/
theorem call_agent_captures_failures :
    ∀ (url : Str) (payload : JVal) (w : World),
      (∀ s b, w.agent url payload = .resp s b → call_agent url payload w = (s, b)) ∧
      (∀ e, w.agent url payload = .exn e → call_agent url payload w = (500, e)) := by
  intro url payload w
  constructor
  · intro s b h
    unfold call_agent
    rw [h]
  · intro e h
    unfold call_agent
    rw [h]

/-- C9 witness: a world whose handler POST raises a connection timeout yields
`(500, error text)`. -/
theorem call_agent_captures_failures_witness :
    call_agent XP_AGENT_URL .null exnWorld = (500, pyS "Connection timed out") :=
  (call_agent_captures_failures XP_AGENT_URL .null exnWorld).2
    (pyS "Connection timed out") rfl

/-! ## C10: input validation -/

/-- C10: a request body without a `message` field, or whose message is a
string that is empty after stripping, answers HTTP 400 with an error body
and produces no effects at all — no classifier call, no create, no POST, no
patch. -/
theorem missing_message_validation (w : World) (bfs : List (Str × JVal))
    (h : lookupField bfs (pyS "message") = none ∨
      ∃ s, lookupField bfs (pyS "message") = some (.str s) ∧ pyStrip s = []) :
    route_message (some (.obj bfs)) w =
      (⟨400, .obj [(pyS "error", .str (pyS "Missing 'message'"))]⟩, {}) := by
  rcases h with h | ⟨s, hs, hstrip⟩
  · have h1 : (jvGetD (.obj bfs) (pyS "message") (.str [])).bind pyStripJ =
        .ok [] := by
      simp [jvGetD, objGetD, h, pyStripJ, Except.bind]
      rfl
    simp [route_message, h1]
  · have h1 : (jvGetD (.obj bfs) (pyS "message") (.str [])).bind pyStripJ =
        .ok [] := by
      simp [jvGetD, objGetD, hs, pyStripJ, Except.bind, hstrip]
    simp [route_message, h1]

/-- C10 witness: evaluated at a body whose message is whitespace-only. -/
theorem missing_message_validation_witness :
    route_message (some (.obj [(pyS "message", .str (pyS "   "))])) okWorld =
      (⟨400, .obj [(pyS "error", .str (pyS "Missing 'message'"))]⟩, {}) :=
  missing_message_validation okWorld [(pyS "message", .str (pyS "   "))]
    (Or.inr ⟨pyS "   ", rfl, rfl⟩)

end PosAgent
